import Mathlib

/-!
Verification of the `tooltest` sample repository (files `sample.py` and
`test_functions.py`) against its natural-language specification.

The Python code is shallowly embedded: the `DataProcessor` class becomes a
structure holding its `data` list, and the mutating method `process_data`
becomes a pure function returning the updated state together with the
produced record.  Python dicts of the fixed shape
`{'id': ..., 'content': ..., 'status': ...}` become the `Record` structure.
-/

/-- A record produced by `DataProcessor.process_data`: the Python dict
`{'id': len(self.data), 'content': input_data, 'status': 'processed'}`. -/
structure Record (α : Type) where
  id : Nat
  content : α
  status : String
deriving Repr, DecidableEq

/-- State of a `DataProcessor` instance: its `self.data` list. -/
structure DataProcessor (α : Type) where
  data : List (Record α)
deriving Repr, DecidableEq

/-- `DataProcessor.__init__`: `self.data = []`. -/
def DataProcessor.new {α : Type} : DataProcessor α :=
  ⟨[]⟩

/-- `DataProcessor.process_data(self, input_data)`: builds the dict
`processed` with id `len(self.data)`, content `input_data`, status
`'processed'`, appends it to `self.data` and returns it.  The embedding
returns the new state together with the returned record. -/
def DataProcessor.process_data {α : Type} (self : DataProcessor α) (input_data : α) :
    DataProcessor α × Record α :=
  let processed : Record α := ⟨self.data.length, input_data, "processed"⟩
  (⟨self.data ++ [processed]⟩, processed)

/-- `calculate_sum(numbers)`: `total = 0; for num in numbers: total += num;
return total`. -/
def calculate_sum (numbers : List Int) : Int :=
  numbers.foldl (fun total num => total + num) 0

/-- A sequence of successive `process_data` calls on one instance: returns
the final state and the list of returned records in call order. -/
def runCalls {α : Type} : DataProcessor α → List α → DataProcessor α × List (Record α)
  | p, [] => (p, [])
  | p, x :: xs =>
    let step := p.process_data x
    let rest := runCalls step.1 xs
    (rest.1, step.2 :: rest.2)

/-- `search_target_function` from `test_functions.py`: body is `pass`,
so it returns `None` (modelled as `Unit`). -/
def search_target_function : Unit :=
  ()

/-- `another_function` from `test_functions.py`: calls
`search_target_function()` and returns `None`. -/
def another_function : Unit :=
  search_target_function

/-- `SampleClass` from `test_functions.py`: it has no attributes. -/
structure SampleClass where
deriving Repr, DecidableEq

/-- `SampleClass.method_one(self)`: body is `pass`; the embedding returns
the (unchanged) state together with the `None` result. -/
def SampleClass.method_one (self : SampleClass) : SampleClass × Unit :=
  (self, ())

/-- `SampleClass.method_two(self)`: calls `self.method_one()` and returns
`None`. -/
def SampleClass.method_two (self : SampleClass) : SampleClass × Unit :=
  self.method_one

/-- Module-scope statements of `sample.py`:
`processor = DataProcessor()`, `result = processor.process_data("test
content")`, `total = calculate_sum([1, 2, 3, 4, 5])`.  Returns the state of
`processor` after import together with the bindings `result` and `total`. -/
def moduleState : DataProcessor String × Record String × Int :=
  let step := (DataProcessor.new : DataProcessor String).process_data "test content"
  (step.1, step.2, calculate_sum [1, 2, 3, 4, 5])

/-! ### Helper lemmas -/

/-- After a run of calls, the state holds the old records followed by all
records returned during the run, in call order. -/
theorem runCalls_data {α : Type} (p : DataProcessor α) (xs : List α) :
    (runCalls p xs).1.data = p.data ++ (runCalls p xs).2 := by
  induction xs generalizing p with
  | nil => simp [runCalls]
  | cons x xs ih =>
    simp [runCalls, DataProcessor.process_data, ih, List.append_assoc]

/-- The identifiers returned by a run of calls count up from the length of
the starting state. -/
theorem runCalls_ids {α : Type} (p : DataProcessor α) (xs : List α) :
    (runCalls p xs).2.map Record.id = List.range' p.data.length xs.length := by
  induction xs generalizing p with
  | nil => simp [runCalls]
  | cons x xs ih =>
    simp [runCalls, List.range'_succ, DataProcessor.process_data, ih]

/-- `calculate_sum` agrees with the mathematical sum of the list. -/
theorem calculate_sum_eq_sum (xs : List Int) : calculate_sum xs = xs.sum := by
  have h : ∀ (a : Int) (l : List Int), l.foldl (fun total num => total + num) a = a + l.sum := by
    intro a l
    induction l generalizing a with
    | nil => simp
    | cons y l ih => simp [ih, add_assoc]
  simpa [calculate_sum] using h 0 xs

/-! ### Claims -/

/-- Claim C1: starting from a freshly constructed `DataProcessor`, the
identifiers of the records returned by N successive `process_data` calls
are exactly 0, 1, ..., N-1 in call order, and each call assigns the
identifier equal to the current length of the internal sequence at the
moment of the call. -/
theorem c1_sequential_ids {α : Type} (xs : List α) (p : DataProcessor α) (x : α) :
    (runCalls DataProcessor.new xs).2.map Record.id = List.range xs.length ∧
    (p.process_data x).2.id = p.data.length := by
  constructor
  · have h := runCalls_ids (DataProcessor.new : DataProcessor α) xs
    simpa [DataProcessor.new, List.range_eq_range'] using h
  · rfl

/-- Claim C2: for every input and every state, the record returned by
`process_data` has status "processed" and content equal to the input; the
first call with "test content" yields the record
with id 0, content "test content", status "processed". -/
theorem c2_content_and_status {α : Type} (p : DataProcessor α) (x : α) :
    (p.process_data x).2.status = "processed" ∧
    (p.process_data x).2.content = x ∧
    ((DataProcessor.new : DataProcessor String).process_data "test content").2 =
      ⟨0, "test content", "processed"⟩ :=
  ⟨rfl, rfl, rfl⟩

/-- Claim C3: `calculate_sum` returns the mathematical sum of its elements;
the empty sequence yields 0 and [1, 2, 3, 4, 5] yields 15. -/
theorem c3_calculate_sum_correct (xs : List Int) :
    calculate_sum xs = xs.sum ∧ calculate_sum [] = 0 ∧
    calculate_sum [1, 2, 3, 4, 5] = 15 :=
  ⟨calculate_sum_eq_sum xs, rfl, by decide⟩

/-- Claim C4: the internal sequence starts empty at construction, and after
any number of `process_data` calls every stored record's identifier equals
its insertion index (strictly increasing, gap-free), with each returned
record also retained internally in insertion order. -/
theorem c4_invariant {α : Type} (xs : List α) :
    (DataProcessor.new : DataProcessor α).data = [] ∧
    (runCalls DataProcessor.new xs).1.data.map Record.id =
      List.range (runCalls DataProcessor.new xs).1.data.length ∧
    (runCalls DataProcessor.new xs).1.data = (runCalls DataProcessor.new xs).2 := by
  have hnew : (DataProcessor.new : DataProcessor α).data = [] := rfl
  have hdata := runCalls_data (DataProcessor.new : DataProcessor α) xs
  have hids := runCalls_ids (DataProcessor.new : DataProcessor α) xs
  rw [hnew, List.nil_append] at hdata
  rw [hnew] at hids
  simp only [List.length_nil] at hids
  refine ⟨hnew, ?_, hdata⟩
  have hlen : (runCalls (DataProcessor.new : DataProcessor α) xs).2.length = xs.length := by
    simpa using congrArg List.length hids
  rw [hdata, hids, hlen, List.range_eq_range']

/-- Claim C5: each `process_data` call changes the state only by appending
exactly one record at the end of the internal sequence; all previously
stored records are left unchanged. -/
theorem c5_frame {α : Type} (p : DataProcessor α) (x : α) :
    (p.process_data x).1.data = p.data ++ [(p.process_data x).2] :=
  rfl

/-- Claim C6: `process_data` is total: for every input value of any type
and every processor state, the call succeeds and returns a record (the
embedding is a total function; the source has no error branch). -/
theorem c6_total {α : Type} (p : DataProcessor α) (x : α) :
    ∃ (q : DataProcessor α) (r : Record α), p.process_data x = (q, r) :=
  ⟨_, _, rfl⟩

/-- Claim C7: the identifier returned by `process_data` depends only on the
number of prior records on that instance, not on the values of prior
inputs; a second call with any input yields identifier 1 regardless of the
first input's value. -/
theorem c7_two_run_independence {α β : Type} (p1 : DataProcessor α) (p2 : DataProcessor β)
    (x : α) (y : β) (h : p1.data.length = p2.data.length) :
    (p1.process_data x).2.id = (p2.process_data y).2.id ∧
    ∀ (a b : α),
      (((DataProcessor.new : DataProcessor α).process_data a).1.process_data b).2.id = 1 := by
  refine ⟨?_, fun a b => rfl⟩
  simpa [DataProcessor.process_data] using h

/-- Witness for C7: two fresh processors over different types with
different inputs return the same identifier. -/
theorem c7_two_run_independence_witness :
    (DataProcessor.new : DataProcessor Int).data.length =
      (DataProcessor.new : DataProcessor String).data.length ∧
    ((DataProcessor.new : DataProcessor Int).process_data 5).2.id =
      ((DataProcessor.new : DataProcessor String).process_data "a").2.id :=
  ⟨rfl,
    (c7_two_run_independence (DataProcessor.new : DataProcessor Int)
      (DataProcessor.new : DataProcessor String) 5 "a" rfl).1⟩

/-- Claim C8: the search-target fixtures perform no computation and keep no
state: all return `None` and leave the state unchanged;
`another_function` equals `search_target_function` and `method_two` equals
`method_one`. -/
theorem c8_fixtures (s : SampleClass) :
    search_target_function = () ∧
    another_function = search_target_function ∧
    s.method_one = (s, ()) ∧
    s.method_two = s.method_one :=
  ⟨rfl, rfl, rfl, rfl⟩

/-- Claim C9: `calculate_sum` is the monoid homomorphism from list
concatenation to addition: it maps append to addition, singletons to their
element, and the empty list to 0. -/
theorem c9_sum_homomorphism (xs ys : List Int) (x : Int) :
    calculate_sum (xs ++ ys) = calculate_sum xs + calculate_sum ys ∧
    calculate_sum [x] = x := by
  refine ⟨?_, ?_⟩
  · simp [calculate_sum_eq_sum]
  · simp [calculate_sum]

/-- Claim C10: importing `sample.py` leaves the global `processor` holding
exactly one record, binds `result` to the record with id 0, content
"test content", status "processed", and binds `total` to 15. -/
theorem c10_module_init :
    moduleState.1.data = [moduleState.2.1] ∧
    moduleState.2.1 = ⟨0, "test content", "processed"⟩ ∧
    moduleState.2.2 = 15 :=
  ⟨rfl, rfl, by decide⟩
